import Mathlib

/-!
Shallow embedding of `rklauncher` (`src/rklauncher/__init__.py`): the
`RemoteKernel` descriptor class, the local kernel-spec manifest handling, and
the `RKManager.create` / `RKManager.remove` / `RKManager.get_installed`
operations.  External effects (ssh command execution, scp copy, local
subprocess invocation, manifest-file writes) are recorded as an explicit
`Effect` trace; the remote side is supplied as an oracle
`exec : String -> String × String` giving each command's (stdout, stderr).
Python exceptions become an explicit `PyError` result.
-/

/-- Python test: is `p` a prefix of the character list (used to model
`str.startswith` and substring search). -/
def leadsWith : List Char → List Char → Bool
  | [], _ => true
  | _ :: _, [] => false
  | p :: ps, c :: cs => p == c && leadsWith ps cs

/-- Model of Python `s.startswith(p)`. -/
def strStartsWith (s p : String) : Bool := leadsWith p.data s.data

/-- Model of Python `s.endswith(p)`. -/
def strEndsWith (s p : String) : Bool := leadsWith p.data.reverse s.data.reverse

/-- Characters of `l` before the first occurrence of the literal separator
`pat`; the whole list when `pat` does not occur. -/
def takeBeforeSeq (pat : List Char) : List Char → List Char
  | [] => []
  | c :: cs => if leadsWith pat (c :: cs) then [] else c :: takeBeforeSeq pat cs

/-- Model of Python `s.split('\s')[0]`: the text before the first occurrence of
the two-character literal separator backslash-s (NOT a regex whitespace
class — `str.split` takes a literal separator). -/
def strFirstField (s : String) : String := String.mk (takeBeforeSeq ['\\', 's'] s.data)

/-- Does the character sequence `pat` occur anywhere in the list? -/
def hasSeq (pat : List Char) : List Char → Bool
  | [] => leadsWith pat []
  | c :: cs => leadsWith pat (c :: cs) || hasSeq pat cs

/-- Substring occurrence test on strings. -/
def strContainsSub (s pat : String) : Bool := hasSeq pat.data s.data

/-- Model of `os.path.join(a, b)` for POSIX paths as used by the source
(two arguments, no drive letters). -/
def pathJoin (a b : String) : String :=
  if strStartsWith b "/" then b
  else if a == "" || strEndsWith a "/" then a ++ b
  else a ++ "/" ++ b

/-- Model of Python `x or d` for an optional string `x`: `d` when `x` is
`None` or empty, otherwise `x`. -/
def pyOr (x : Option String) (d : String) : String :=
  match x with
  | none => d
  | some s => if s == "" then d else s

/-- Python truthiness of an optional string: `False` for `None` and `''`. -/
def pyTruthy : Option String → Bool
  | none => false
  | some s => !(s == "")

/-- The Python exceptions the source can raise, named after the spec's error
taxonomy (§7): the generic `Exception`s at the two duplicate-id raise sites
are `alreadyExists` / `remoteAlreadyExists`, the `raise ValueError` in
`RemoteKernel.__init__` is `valueError`, `os.path.join(None, ...)` raises
`typeError`, the missing-id raise in `remove` is `notFound`, and the
`open`/`json.load` failures in `__get_local_kernelspec_dict`
(`FileNotFoundError` / `OSError` / `JSONDecodeError`) are grouped as
`manifestUnreadable`. -/
inductive PyError where
  | valueError
  | typeError
  | alreadyExists
  | remoteAlreadyExists
  | notFound
  | manifestUnreadable
deriving DecidableEq

/-- `RemoteKernel`: the kernel descriptor value object (source lines 15-44). -/
structure RemoteKernel where
  rk_id : String
  uri : String
  python_cmd : String
  venv_name : Option String
  display_name : String
deriving DecidableEq

/-- `RemoteKernel.__init__` (source lines 16-32): stores the fields, defaults
`display_name` to `'<uri> :: <rk_id>'`, then raises `ValueError` when `uri`,
`rk_id`, or `python_cmd` is falsy (`None` or empty). `python_cmd` is optional
here because `get_installed` passes `y.get('interpreter')`, which may be
`None`. -/
def RemoteKernel.init (uri rk_id : String) (venv : Option String)
    (python_cmd : Option String) (display_name : Option String) :
    Except PyError RemoteKernel :=
  match python_cmd with
  | none => .error .valueError
  | some pc =>
    if uri == "" || rk_id == "" || pc == "" then .error .valueError
    else .ok ⟨rk_id, uri, pc, venv, pyOr display_name (uri ++ " :: " ++ rk_id)⟩

/-- `RemoteKernel.__eq__` (source lines 38-44) between two descriptors:
compares `uri`, `venv_name`, and `python_cmd`; `rk_id` and `display_name` are
deliberately excluded. -/
def rkEq (a b : RemoteKernel) : Bool :=
  a.uri == b.uri && a.venv_name == b.venv_name && a.python_cmd == b.python_cmd

/-- One value of the manifest JSON object: the record written by `create`
(source lines 180-186) / read by `get_installed`. `interpreter` and `venv`
are optional because `get_installed` reads them with `dict.get`. -/
structure KernelRecord where
  display_name : String
  interpreter : Option String
  language : String
  remote_host : String
  venv : Option String
deriving DecidableEq

/-- The manifest JSON object: a Python dict (insertion-ordered association
list with unique keys) from kernel id to record. -/
abbrev Manifest := List (String × KernelRecord)

/-- Python `dict` lookup `kernel_dict.get(k)` / `k in kernel_dict`. -/
def dictLookup : Manifest → String → Option KernelRecord
  | [], _ => none
  | (k, v) :: rest, key => if k == key then some v else dictLookup rest key

/-- Python `dict` assignment `kernel_dict[k] = v`: replaces the value in
place when the key is present, otherwise appends. -/
def dictInsert : Manifest → String → KernelRecord → Manifest
  | [], k, v => [(k, v)]
  | (k', v') :: rest, k, v =>
    if k' == k then (k, v) :: rest else (k', v') :: dictInsert rest k v

/-- Outcome of reading the local kernel-spec file, as seen by
`__get_local_kernelspec_dict` (source lines 231-236): the file can be
missing (`FileNotFoundError` from `open`), unreadable (`OSError`), hold text
that is not valid JSON (`json.JSONDecodeError`), or hold a JSON object that
parses to a manifest mapping. -/
inductive FileState where
  | missing
  | unreadable
  | notJson
  | stored (m : Manifest)
deriving DecidableEq

/-- `RKManager.__get_local_kernelspec_dict` (source lines 231-236): `open`
then `json.load`, with no exception handling and no default — every failure
propagates, and a successful read returns the full stored mapping. -/
def loadManifest : FileState → Except PyError Manifest
  | .missing => .error .manifestUnreadable
  | .unreadable => .error .manifestUnreadable
  | .notJson => .error .manifestUnreadable
  | .stored m => .ok m

/-- A Python list comprehension over fallible element construction: elements
in order, the first raised exception propagates. -/
def exceptMap {α β : Type} (f : α → Except PyError β) : List α → Except PyError (List β)
  | [] => .ok []
  | a :: as =>
    match f a with
    | .error e => .error e
    | .ok b =>
      match exceptMap f as with
      | .error e => .error e
      | .ok bs => .ok (b :: bs)

/-- The element filter of `get_installed`'s comprehension:
`y['remote_host'] != uri`, where `uri` is `None` or a string. -/
def hostKept (remote_host : String) : Option String → Bool
  | none => true
  | some s => !(remote_host == s)

/-- Reconstruction of one manifest entry as a descriptor (source lines
249-250): `RemoteKernel(y['remote_host'], x, venv=y.get('venv'),
python_cmd=y.get('interpreter'))`. -/
def reconstruct (p : String × KernelRecord) : Except PyError RemoteKernel :=
  RemoteKernel.init p.2.remote_host p.1 p.2.venv p.2.interpreter none

/-- `RKManager.get_installed` (source lines 238-251) applied to an
already-loaded manifest dict. -/
def get_installed (kd : Manifest) (uri : Option String) : Except PyError (List RemoteKernel) :=
  exceptMap reconstruct (kd.filter (fun p => hostKept p.2.remote_host uri))

/-- One observable side effect of `create` / `remove`: an ssh connection, an
`__execute_ssh` command, an `scp.put` file copy, a local `subprocess.run`
invocation, or a `json.dump` rewrite of the kernel-spec file. -/
inductive ManifestWrite where
  | manifest (m : Manifest)
  | record (r : KernelRecord)
deriving DecidableEq

inductive Effect where
  | connect (host user : String)
  | ssh (cmd : String)
  | scpPut (localFile remoteFile : String)
  | runLocal (args : List String)
  | writeKernels (doc : ManifestWrite)
deriving DecidableEq

/-- The keyword arguments recognized by `RKManager.create` (source lines
76-100): `overwrite` (checked for truthiness), `remote_venv_root_dir`, and
`remote_username`. -/
structure CreateKwargs where
  overwrite : Bool
  remote_venv_root_dir : Option String
  remote_username : Option String

/-- `remote_venv_dir` (source lines 90-93): set only when `venv_name` is
truthy, to `os.path.join(kwargs.get('remote_venv_root_dir') or '~/',
venv_name)`. -/
def venvDirOf (rk : RemoteKernel) (root : Option String) : Option String :=
  match rk.venv_name with
  | none => none
  | some v =>
    if v == "" then none
    else some (pathJoin (pyOr root "~/") v)

/-- `cmd_does_venv_exist` (source line 125). -/
def venvProbeCmd (dir : String) : String :=
  "[ -d " ++ dir ++ " ] && echo \"True\""

/-- `cmd_create_venv` (source lines 128-131). -/
def venvCreateCmd (pythonCmd dir : String) : String :=
  "virtualenv -p=" ++ pythonCmd ++ " " ++ dir

/-- The find/create-venv step of `__create` (source lines 123-133): when a
venv name is present, probe the directory with `cmd_does_venv_exist` and run
`cmd_create_venv` only when the probe's stdout is empty (falsy). -/
def venvStepEffects (rk : RemoteKernel) (root : Option String)
    (exec : String → String × String) : List Effect :=
  match venvDirOf rk root with
  | none => []
  | some dir =>
    if (exec (venvProbeCmd dir)).1 == "" then
      [Effect.ssh (venvProbeCmd dir), Effect.ssh (venvCreateCmd rk.python_cmd dir)]
    else
      [Effect.ssh (venvProbeCmd dir)]

/-- The sudo-determination step of `__create` (source lines 135-141): when no
venv is used, run `which <remote_python_cmd>` and escalate when its stdout
starts with `/usr`; returns (effects, sudo string). -/
def sudoStep (rk : RemoteKernel) (remote_python_cmd : String)
    (exec : String → String × String) : List Effect × String :=
  if pyTruthy rk.venv_name then ([], "")
  else
    ([Effect.ssh ("which " ++ remote_python_cmd)],
      if strStartsWith (exec ("which " ++ remote_python_cmd)).1 "/usr" then "sudo" else "")

/-- The requirements-file step of `__create` (source lines 162-176): when a
requirements file is given, compose `os.path.join(remote_venv_dir,
'requirements.txt')` — a `TypeError` when `remote_venv_dir` is `None` — then
copy the file and run the pip install command. -/
def reqStep (requirements_file : Option String) (remote_venv_dir : Option String)
    (sudoPfx remote_pip_cmd : String) : Except PyError (List Effect) :=
  match requirements_file with
  | none => .ok []
  | some reqf =>
    if reqf == "" then .ok []
    else
      match remote_venv_dir with
      | none => .error .typeError
      | some dir =>
        .ok [Effect.scpPut reqf (pathJoin dir "requirements.txt"),
          Effect.ssh (sudoPfx ++ " " ++ remote_pip_cmd ++ " install -r "
            ++ pathJoin dir "requirements.txt")]

/-- The manifest record `create` stores under `rk_id` (source lines
180-186). -/
def newRecordOf (rk : RemoteKernel) (user : String) : KernelRecord :=
  { display_name := rk.display_name
    interpreter := some rk.python_cmd
    language := "python"
    remote_host := user ++ "@" ++ rk.uri
    venv := rk.venv_name }

/-- The final Local Kernel Registrar invocations (source lines 190-194). -/
def registrarEffects (overwriteFlag : Bool) (rk_id : String) : List Effect :=
  (if overwriteFlag then [Effect.runLocal ["sudo", "rk", "uninstall", rk_id]] else [])
    ++ [Effect.runLocal ["sudo", "rk", "install", rk_id]]

/-- `RKManager.create` (source lines 76-196).  The manifest file is read
twice in the source (via `get_installed` at line 103 and directly at line
179) with no intervening write, so both reads see the same `FileState`.
Returns the operation outcome together with the ordered effect trace. -/
def createRun (rk : RemoteKernel) (requirements_file : Option String)
    (kwargs : CreateKwargs) (file : FileState)
    (exec : String → String × String) : Except PyError Unit × List Effect :=
  let remote_venv_dir := venvDirOf rk kwargs.remote_venv_root_dir
  let remote_bin_dir := remote_venv_dir.getD ""
  let remote_python_cmd := pathJoin remote_bin_dir "python"
  let remote_pip_cmd := pathJoin remote_bin_dir "pip"
  let remote_jupyter_cmd := pathJoin remote_bin_dir "jupyter"
  let user := pyOr kwargs.remote_username "ubuntu"
  let tr0 := [Effect.connect rk.uri user]
  match loadManifest file with
  | .error e => (.error e, tr0)
  | .ok kernel_dict0 =>
    match get_installed kernel_dict0 none with
    | .error e => (.error e, tr0)
    | .ok rks =>
      let duplicates := rks.filter (fun x => rkEq x rk)
      let sameId := duplicates.any (fun d => d.rk_id == rk.rk_id)
      if sameId && !kwargs.overwrite then (.error .alreadyExists, tr0)
      else
        let overwriteFlag := sameId && kwargs.overwrite
        let venvFx := venvStepEffects rk kwargs.remote_venv_root_dir exec
        let sfx := sudoStep rk remote_python_cmd exec
        let sudoPfx := sfx.2
        let cmdPipJupyter := sudoPfx ++ " " ++ remote_pip_cmd ++ " install jupyter"
        let cmdKernelspecList := remote_jupyter_cmd ++ " kernelspec list"
        let tr1 := tr0 ++ venvFx ++ sfx.1
          ++ [Effect.ssh cmdPipJupyter, Effect.ssh cmdKernelspecList]
        if [strFirstField (exec cmdKernelspecList).2].contains rk.rk_id
            && !kwargs.overwrite then
          (.error .remoteAlreadyExists, tr1)
        else
          let cmdIpykernel := sudoPfx ++ " " ++ remote_python_cmd
            ++ " -m ipykernel install --name=" ++ rk.rk_id
          let tr2 := tr1 ++ [Effect.ssh cmdIpykernel]
          match reqStep requirements_file remote_venv_dir sudoPfx remote_pip_cmd with
          | .error e => (.error e, tr2)
          | .ok reqFx =>
            let kernel_dict := dictInsert kernel_dict0 rk.rk_id (newRecordOf rk user)
            (.ok (), tr2 ++ reqFx
              ++ [Effect.writeKernels (.manifest kernel_dict)]
              ++ registrarEffects overwriteFlag rk.rk_id)

/-- `RKManager.remove` (source lines 198-224): connect (default user
`ubuntu`), load the manifest, raise when `rk_id` is absent, invoke the
registrar uninstall, then `new_kd = kernel_dict.pop(rk_id)` followed by
`json.dump(new_kd, new_ks)` — the file is overwritten with the POPPED RECORD
itself, not with the remaining mapping. -/
def removeRun (rk : RemoteKernel) (file : FileState) : Except PyError Unit × List Effect :=
  let tr0 := [Effect.connect rk.uri "ubuntu"]
  match loadManifest file with
  | .error e => (.error e, tr0)
  | .ok kernel_dict =>
    match dictLookup kernel_dict rk.rk_id with
    | none => (.error .notFound, tr0)
    | some new_kd =>
      (.ok (), tr0 ++ [Effect.runLocal ["sudo", "rk", "uninstall", rk.rk_id],
        Effect.writeKernels (.record new_kd)])

/-- A manifest record is well formed when its key data suffices to
reconstruct a descriptor: non-empty `remote_host` and a non-empty
`interpreter` string (the fields `get_installed` feeds to
`RemoteKernel.__init__`'s validation). -/
def wellFormedRecord (r : KernelRecord) : Bool :=
  !(r.remote_host == "") &&
    (match r.interpreter with
     | some i => !(i == "")
     | none => false)

/-- All entries of the manifest have a non-empty kernel id and a well-formed
record. -/
def manifestWellFormed (m : Manifest) : Bool :=
  m.all (fun p => !(p.1 == "") && wellFormedRecord p.2)

/-- Split a character list on a separator character (Python
`str.split(sep)`). -/
def splitOnChar (c : Char) : List Char → List (List Char)
  | [] => [[]]
  | a :: as =>
    match splitOnChar c as with
    | [] => if a == c then [[], []] else [[a]]
    | h :: t => if a == c then [] :: h :: t else (a :: h) :: t

/-- Is the character one of the whitespace characters relevant to
`jupyter kernelspec list` output? -/
def isWsChar (c : Char) : Bool := c == ' ' || c == '\t'

/-- Modelled from the spec: §4.3 step 7 queries "existing remote kernel
registrations"; a kernel id is "already registered there" when it appears in
the `jupyter kernelspec list` stdout, whose first line is a header and whose
following lines each start with the kernel id as the first
whitespace-delimited token.  The source's check (line 150) was meant to
compute this list but iterates over the wrong tuple component. -/
def intendedRemoteKernelIds (stdout : String) : List String :=
  ((splitOnChar '\n' stdout.data).drop 1).filterMap (fun line =>
    let tok := (line.dropWhile isWsChar).takeWhile (fun c => !(isWsChar c))
    if tok.isEmpty then none else some (String.mk tok))

/-- Concrete fixture: a valid descriptor (host `10.0.0.5`, id `k1`, venv
`envA`, interpreter `python3.8`, default display name). -/
def dA : RemoteKernel := ⟨"k1", "10.0.0.5", "python3.8", some "envA", "10.0.0.5 :: k1"⟩

/-- Concrete fixture: kwargs with `overwrite` unset and defaults. -/
def kwA : CreateKwargs := ⟨false, none, none⟩

/-- Concrete fixture: a remote host whose `jupyter kernelspec list` stdout
lists kernel id `k1` (with empty stderr), every other command returning
empty output; the venv probe's empty stdout means the venv is absent. -/
def execA : String → String × String := fun cmd =>
  if cmd == "~/envA/jupyter kernelspec list" then
    ("Available kernels:\n  k1    /home/ubuntu/.local/share/jupyter/kernels/k1", "")
  else ("", "")

/-- The manifest that `createRun dA none kwA (.stored []) execA` persists. -/
def mA : Manifest :=
  [("k1", ⟨"10.0.0.5 :: k1", some "python3.8", "python", "ubuntu@10.0.0.5", some "envA"⟩)]

/-- Concrete fixture records for the `remove` defect. -/
def rB1 : KernelRecord := ⟨"disp one", some "python3", "python", "ubuntu@h1", some "v1"⟩

def rB2 : KernelRecord := ⟨"disp two", some "python3", "python", "ubuntu@h2", some "v2"⟩

/-- Concrete fixture: descriptor for kernel id `k1` on host `h1`. -/
def dB : RemoteKernel := ⟨"k1", "h1", "python3", some "v1", "h1 :: k1"⟩

/-- Concrete fixture: descriptor for kernel id `k1` on host `h1` with no
venv name. -/
def dC : RemoteKernel := ⟨"k1", "h1", "python3", none, "h1 :: k1"⟩

theorem exceptMap_ok_mem {α β : Type} (f : α → Except PyError β) :
    ∀ {l : List α} {ys : List β}, exceptMap f l = .ok ys →
      ∀ a ∈ l, ∃ b, f a = .ok b ∧ b ∈ ys := by
  intro l
  induction l with
  | nil => intro ys _ a ha; cases ha
  | cons x xs ih =>
    intro ys h a ha
    unfold exceptMap at h
    cases hf : f x with
    | error e => rw [hf] at h; cases h
    | ok b =>
      rw [hf] at h
      cases hm : exceptMap f xs with
      | error e => rw [hm] at h; cases h
      | ok bs =>
        rw [hm] at h
        injection h with h
        subst h
        rcases List.mem_cons.mp ha with rfl | ha'
        · exact ⟨b, hf, List.mem_cons_self _ _⟩
        · obtain ⟨b', hb', hmem⟩ := ih hm a ha'
          exact ⟨b', hb', List.mem_cons_of_mem _ hmem⟩

theorem exceptMap_ok_of_all {α β : Type} (f : α → Except PyError β) :
    ∀ (l : List α), (∀ a ∈ l, ∃ b, f a = .ok b) →
      ∃ ys, exceptMap f l = .ok ys := by
  intro l
  induction l with
  | nil => exact fun _ => ⟨[], rfl⟩
  | cons x xs ih =>
    intro h
    obtain ⟨b, hb⟩ := h x (List.mem_cons_self _ _)
    obtain ⟨bs, hbs⟩ := ih (fun a ha => h a (List.mem_cons_of_mem _ ha))
    exact ⟨b :: bs, by unfold exceptMap; rw [hb, hbs]⟩

theorem dictInsert_mem_or (m : Manifest) (k : String) (v : KernelRecord) :
    ∀ p ∈ dictInsert m k v, p = (k, v) ∨ p ∈ m := by
  induction m with
  | nil => intro p hp; simp [dictInsert] at hp; exact Or.inl hp
  | cons q rest ih =>
    intro p hp
    unfold dictInsert at hp
    by_cases hk : (q.1 == k) = true
    · simp [hk] at hp
      rcases hp with rfl | hp
      · exact Or.inl rfl
      · exact Or.inr (List.mem_cons_of_mem _ hp)
    · rw [Bool.not_eq_true] at hk
      simp [hk] at hp
      rcases hp with rfl | hp
      · exact Or.inr (List.mem_cons_self _ _)
      · rcases ih p hp with h | h
        · exact Or.inl h
        · exact Or.inr (List.mem_cons_of_mem _ h)

theorem dictInsert_self_mem (m : Manifest) (k : String) (v : KernelRecord) :
    (k, v) ∈ dictInsert m k v := by
  induction m with
  | nil => simp [dictInsert]
  | cons q rest ih =>
    unfold dictInsert
    by_cases hk : (q.1 == k) = true
    · simp [hk]
    · rw [Bool.not_eq_true] at hk
      simp [hk]
      exact Or.inr ih

theorem get_installed_none (kd : Manifest) :
    get_installed kd none = exceptMap reconstruct kd := by
  unfold get_installed
  have h : kd.filter (fun p => hostKept p.2.remote_host none) = kd := by
    induction kd with
    | nil => rfl
    | cons p ps ih => simp [List.filter, hostKept, ih]
  rw [h]

theorem append_at_ne_empty (s t : String) : ¬(s ++ "@" ++ t = "") := by
  intro h
  have h2 := congrArg String.data h
  have ha : ("@" : String).data = ['@'] := rfl
  have he : ("" : String).data = [] := rfl
  rw [String.data_append, String.data_append, ha, he] at h2
  simp at h2

theorem init_ok (u k pc : String) (v : Option String)
    (hu : u ≠ "") (hk : k ≠ "") (hp : pc ≠ "") :
    RemoteKernel.init u k v (some pc) none = .ok ⟨k, u, pc, v, u ++ " :: " ++ k⟩ := by
  unfold RemoteKernel.init pyOr
  simp [hu, hk, hp]

theorem venvDirOf_none (rk : RemoteKernel) (root : Option String)
    (hv : pyTruthy rk.venv_name = false) : venvDirOf rk root = none := by
  unfold venvDirOf
  unfold pyTruthy at hv
  cases hvn : rk.venv_name with
  | none => rfl
  | some v =>
    rw [hvn] at hv
    simp at hv
    simp [hv]

theorem manifestWellFormed_reconstruct (kd : Manifest)
    (hwf : manifestWellFormed kd = true) :
    ∀ p ∈ kd, ∃ b, reconstruct p = .ok b := by
  intro p hp
  have h := List.all_eq_true.mp hwf p hp
  simp [wellFormedRecord] at h
  obtain ⟨hk, hh, hi⟩ := h
  cases hint : p.2.interpreter with
  | none => rw [hint] at hi; cases hi
  | some i =>
    rw [hint] at hi
    simp at hi
    exact ⟨_, by unfold reconstruct; rw [hint]; exact init_ok _ _ _ _ hh hk hi⟩

/-- C1: the claim says `remove` on a present kernel id persists a manifest
containing every other previously-present id and not the removed one.  The
code instead executes `new_kd = kernel_dict.pop(rk_id)` followed by
`json.dump(new_kd, new_ks)` (source lines 220-222): the file is overwritten
with the popped record object itself.  On the manifest holding ids `k1` and
`k2`, removing `k1` succeeds but persists the removed `k1` record — never a
mapping, in particular never the mapping containing exactly `k2`. -/
theorem claim_C1_remove_writes_removed_record :
    removeRun dB (.stored [("k1", rB1), ("k2", rB2)]) =
      (.ok (), [Effect.connect "h1" "ubuntu",
        Effect.runLocal ["sudo", "rk", "uninstall", "k1"],
        Effect.writeKernels (.record rB1)]) ∧
    ∀ m : Manifest,
      Effect.writeKernels (.manifest m) ∉
        (removeRun dB (.stored [("k1", rB1), ("k2", rB2)])).2 := by
  constructor
  · rfl
  · intro m
    show Effect.writeKernels (.manifest m) ∉
      [Effect.connect "h1" "ubuntu",
        Effect.runLocal ["sudo", "rk", "uninstall", "k1"],
        Effect.writeKernels (.record rB1)]
    simp

/-- C4: the claim says the remote-registration step fails with
`RemoteAlreadyExistsError` exactly when the requested id is among the
remotely registered kernel ids and `overwrite` is unset.  Source line 149
forgets to unpack the `__execute_ssh` tuple, so line 150 iterates over
`(stderr,)` and splits on the literal `'\s'`: the registered-kernel list in
stdout is never consulted.  Here `jupyter kernelspec list` reports `k1` as
registered, `overwrite` is unset, yet `create` succeeds. -/
theorem claim_C4_remote_exists_check_bug :
    "k1" ∈ intendedRemoteKernelIds (execA "~/envA/jupyter kernelspec list").1 ∧
    dA.rk_id = "k1" ∧ kwA.overwrite = false ∧
    (createRun dA none kwA (.stored []) execA).1 = .ok () := by
  refine ⟨by decide, rfl, rfl, rfl⟩

/-- C6: `RemoteKernel.__init__` raises `ValueError` exactly when `uri`,
`rk_id`, or `python_cmd` is empty, and succeeds exactly when all three are
non-empty (any venv and display name). -/
theorem claim_C6_descriptor_validation (uri rk_id py : String) (venv dn : Option String) :
    ((RemoteKernel.init uri rk_id venv (some py) dn = .error .valueError) ↔
      (uri = "" ∨ rk_id = "" ∨ py = "")) ∧
    ((∃ r, RemoteKernel.init uri rk_id venv (some py) dn = .ok r) ↔
      (uri ≠ "" ∧ rk_id ≠ "" ∧ py ≠ "")) := by
  unfold RemoteKernel.init
  by_cases h1 : uri = "" <;> by_cases h2 : rk_id = "" <;> by_cases h3 : py = "" <;>
    simp [h1, h2, h3]

/-- C7: descriptor equality holds iff `uri`, `venv_name`, and `python_cmd`
all match; it is reflexive, symmetric, and transitive, and holds after
replacing only the kernel id and display name. -/
theorem claim_C7_descriptor_equality (a b c : RemoteKernel) (id dn : String) :
    (rkEq a b = true ↔
      (a.uri = b.uri ∧ a.venv_name = b.venv_name ∧ a.python_cmd = b.python_cmd)) ∧
    rkEq a a = true ∧
    rkEq a b = rkEq b a ∧
    (rkEq a b = true → rkEq b c = true → rkEq a c = true) ∧
    rkEq a ⟨id, a.uri, a.python_cmd, a.venv_name, dn⟩ = true := by
  refine ⟨by simp [rkEq, and_assoc], by simp [rkEq], ?_, ?_, by simp [rkEq]⟩
  · cases hab : rkEq a b with
    | true =>
      have h' : rkEq b a = true := by
        simp [rkEq, and_assoc] at hab ⊢
        exact ⟨hab.1.symm, hab.2.1.symm, hab.2.2.symm⟩
      rw [h']
    | false =>
      cases hba : rkEq b a with
      | false => rfl
      | true =>
        have h' : rkEq a b = true := by
          simp [rkEq, and_assoc] at hba ⊢
          exact ⟨hba.1.symm, hba.2.1.symm, hba.2.2.symm⟩
        rw [hab] at h'
        cases h'
  · intro h1 h2
    simp [rkEq, and_assoc] at h1 h2 ⊢
    exact ⟨h1.1.trans h2.1, h1.2.1.trans h2.2.1, h1.2.2.trans h2.2.2⟩

/-- C8: `remove` on a manifest not containing the descriptor's kernel id
fails with `NotFoundError`, with no registrar invocation and no manifest
write (the returned trace is the connection alone, so the persisted file is
untouched). -/
theorem claim_C8_remove_absent (rk : RemoteKernel) (kd : Manifest) (file : FileState)
    (hload : loadManifest file = .ok kd)
    (habs : dictLookup kd rk.rk_id = none) :
    removeRun rk file = (.error .notFound, [Effect.connect rk.uri "ubuntu"]) := by
  simp [removeRun, hload, habs]

theorem claim_C8_witness :
    loadManifest (.stored [("k2", rB2)]) = .ok [("k2", rB2)] ∧
    dictLookup [("k2", rB2)] dB.rk_id = none ∧
    removeRun dB (.stored [("k2", rB2)]) =
      (.error .notFound, [Effect.connect dB.uri "ubuntu"]) :=
  ⟨rfl, rfl, claim_C8_remove_absent dB [("k2", rB2)] (.stored [("k2", rB2)]) rfl rfl⟩

/-- C9: `__get_local_kernelspec_dict` succeeds exactly on a readable
JSON-object file, returning the full stored mapping (so an empty mapping can
only come from a file that stores one), and every missing / unreadable /
invalid-JSON state fails with the `ManifestUnreadable` error — there is no
silent default. -/
theorem claim_C9_manifest_load (fs : FileState) :
    (∀ m, loadManifest fs = .ok m ↔ fs = .stored m) ∧
    (loadManifest fs = .error .manifestUnreadable ↔
      (fs = .missing ∨ fs = .unreadable ∨ fs = .notJson)) := by
  cases fs <;> simp [loadManifest]

theorem claim_C7_witness :
    rkEq ⟨"i1", "h", "py", some "v", "d1"⟩ ⟨"i2", "h", "py", some "v", "d2"⟩ = true ∧
    rkEq ⟨"i2", "h", "py", some "v", "d2"⟩ ⟨"i3", "h", "py", some "v", "d3"⟩ = true ∧
    rkEq ⟨"i1", "h", "py", some "v", "d1"⟩ ⟨"i3", "h", "py", some "v", "d3"⟩ = true :=
  ⟨by decide, by decide,
    (claim_C7_descriptor_equality ⟨"i1", "h", "py", some "v", "d1"⟩
        ⟨"i2", "h", "py", some "v", "d2"⟩ ⟨"i3", "h", "py", some "v", "d3"⟩
        "zz" "dd").2.2.2.1 (by decide) (by decide)⟩

/-- C3: when the loaded manifest (all of whose entries are well formed)
already holds, under the new descriptor's own kernel id, a record whose
derived host, venv, and interpreter equal the new descriptor's, `create`
with `overwrite` unset fails with `AlreadyExistsError` (source lines
106-116) and the returned trace is the connection alone — in particular the
manifest file is never rewritten. -/
theorem claim_C3_duplicate_id_no_overwrite (rk : RemoteKernel) (req : Option String)
    (root userArg : Option String) (file : FileState) (exec : String → String × String)
    (kd : Manifest) (r : KernelRecord)
    (hload : loadManifest file = .ok kd)
    (hwf : manifestWellFormed kd = true)
    (hmem : (rk.rk_id, r) ∈ kd)
    (hhost : r.remote_host = rk.uri)
    (hvenv : r.venv = rk.venv_name)
    (hint : r.interpreter = some rk.python_cmd) :
    createRun rk req ⟨false, root, userArg⟩ file exec =
      (.error .alreadyExists, [Effect.connect rk.uri (pyOr userArg "ubuntu")]) := by
  have hall := List.all_eq_true.mp hwf _ hmem
  simp [wellFormedRecord] at hall
  obtain ⟨hk, hh, hi⟩ := hall
  rw [hint] at hi
  simp at hi
  rw [hhost] at hh
  obtain ⟨ys, hy⟩ := exceptMap_ok_of_all reconstruct kd (manifestWellFormed_reconstruct kd hwf)
  have hg : get_installed kd none = .ok ys := by rw [get_installed_none]; exact hy
  have hrec : reconstruct (rk.rk_id, r) =
      .ok ⟨rk.rk_id, rk.uri, rk.python_cmd, rk.venv_name, rk.uri ++ " :: " ++ rk.rk_id⟩ := by
    show RemoteKernel.init r.remote_host rk.rk_id r.venv r.interpreter none = _
    rw [hhost, hvenv, hint]
    exact init_ok _ _ _ _ hh hk hi
  obtain ⟨b, hb, hbmem⟩ := exceptMap_ok_mem reconstruct hy _ hmem
  rw [hrec] at hb
  injection hb with hb
  have hsame : (ys.filter (fun x => rkEq x rk)).any (fun d => d.rk_id == rk.rk_id) = true := by
    rw [List.any_eq_true]
    refine ⟨b, List.mem_filter.mpr ⟨hbmem, ?_⟩, ?_⟩
    · rw [← hb]; simp [rkEq]
    · rw [← hb]; simp
  simp only [createRun, hload, hg]
  simp [hsame]

theorem claim_C3_witness :
    loadManifest (.stored [("k1", ⟨"disp", some "python3", "python", "h1", some "v1"⟩)]) =
      .ok [("k1", ⟨"disp", some "python3", "python", "h1", some "v1"⟩)] ∧
    manifestWellFormed [("k1", ⟨"disp", some "python3", "python", "h1", some "v1"⟩)] = true ∧
    createRun dB none ⟨false, none, none⟩
        (.stored [("k1", ⟨"disp", some "python3", "python", "h1", some "v1"⟩)])
        (fun _ => ("", "")) =
      (.error .alreadyExists, [Effect.connect dB.uri (pyOr none "ubuntu")]) :=
  ⟨rfl, by decide,
    claim_C3_duplicate_id_no_overwrite dB none none none
      (.stored [("k1", ⟨"disp", some "python3", "python", "h1", some "v1"⟩)])
      (fun _ => ("", ""))
      [("k1", ⟨"disp", some "python3", "python", "h1", some "v1"⟩)]
      ⟨"disp", some "python3", "python", "h1", some "v1"⟩
      rfl (by decide) (by decide) rfl rfl rfl⟩

/-- C5: once `create` has passed the duplicate check, its effect trace opens
with the connection followed by exactly the find/create-venv step's effects,
and (when a venv name is present, so the venv directory resolves) that step
issues the `virtualenv` creation command iff the remote directory-existence
probe returned empty stdout, i.e. reported the directory absent; a
present directory yields the probe alone, so a repeated `create` skips
re-creation (source lines 123-133). -/
theorem claim_C5_venv_idempotent (rk : RemoteKernel) (req : Option String)
    (kw : CreateKwargs) (file : FileState) (exec : String → String × String)
    (kd : Manifest) (rks : List RemoteKernel)
    (hv : pyTruthy rk.venv_name = true)
    (hload : loadManifest file = .ok kd)
    (hg : get_installed kd none = .ok rks)
    (hnodup : ((rks.filter (fun x => rkEq x rk)).any (fun d => d.rk_id == rk.rk_id)
        && !kw.overwrite) = false) :
    (∃ rest, (createRun rk req kw file exec).2 =
        Effect.connect rk.uri (pyOr kw.remote_username "ubuntu")
          :: (venvStepEffects rk kw.remote_venv_root_dir exec ++ rest)) ∧
    (∀ dir, venvDirOf rk kw.remote_venv_root_dir = some dir →
      venvStepEffects rk kw.remote_venv_root_dir exec =
        (if (exec (venvProbeCmd dir)).1 == "" then
          [Effect.ssh (venvProbeCmd dir), Effect.ssh (venvCreateCmd rk.python_cmd dir)]
        else [Effect.ssh (venvProbeCmd dir)])) := by
  constructor
  · simp only [createRun, hload, hg, hnodup]
    split
    · exact absurd ‹false = true› (by simp)
    · split
      · exact ⟨_, by simp [List.append_assoc] <;> rfl⟩
      · split
        · exact ⟨_, by simp [List.append_assoc] <;> rfl⟩
        · exact ⟨_, by simp [List.append_assoc] <;> rfl⟩
  · intro dir hdir
    unfold venvStepEffects
    rw [hdir]

theorem claim_C5_witness :
    pyTruthy dB.venv_name = true ∧
    ((fun _ => ("", "")) (venvProbeCmd "~/v1") : String × String).1 = "" ∧
    (∃ rest, (createRun dB none ⟨false, none, none⟩ (.stored []) (fun _ => ("", ""))).2 =
        Effect.connect dB.uri (pyOr none "ubuntu")
          :: (venvStepEffects dB none (fun _ => ("", "")) ++ rest)) ∧
    venvStepEffects dB none (fun _ => ("", "")) =
      [Effect.ssh (venvProbeCmd "~/v1"), Effect.ssh (venvCreateCmd "python3" "~/v1")] :=
  ⟨by decide, rfl,
    (claim_C5_venv_idempotent dB none ⟨false, none, none⟩ (.stored []) (fun _ => ("", ""))
        [] [] (by decide) rfl rfl (by decide)).1,
    by
      rw [(claim_C5_venv_idempotent dB none ⟨false, none, none⟩ (.stored []) (fun _ => ("", ""))
          [] [] (by decide) rfl rfl (by decide)).2 "~/v1" rfl]
      decide⟩

/-- C10: `create` with a (truthy) requirements file but a descriptor with no
venv name reaches `os.path.join(remote_venv_dir, 'requirements.txt')` with
`remote_venv_dir = None` (source line 164) and dies with the unhandled
`TypeError`, after the ipykernel-install command but before any `scp.put`
copy of the requirements file — no copy or requirements install ever
appears in the trace.  (The hypotheses pin the invocation down to the path
on which this step is reached: manifest loads and reconstructs, the
duplicate check passes, the remote-registration check does not fire.) -/
theorem claim_C10_requirements_without_venv (rk : RemoteKernel) (reqf : String)
    (kw : CreateKwargs) (file : FileState) (exec : String → String × String)
    (kd : Manifest) (rks : List RemoteKernel)
    (hreq : reqf ≠ "")
    (hv : pyTruthy rk.venv_name = false)
    (hload : loadManifest file = .ok kd)
    (hg : get_installed kd none = .ok rks)
    (hnodup : ((rks.filter (fun x => rkEq x rk)).any (fun d => d.rk_id == rk.rk_id)
        && !kw.overwrite) = false)
    (hnorem : ([strFirstField (exec ("jupyter kernelspec list")).2].contains rk.rk_id
        && !kw.overwrite) = false) :
    (createRun rk (some reqf) kw file exec).1 = .error .typeError ∧
    (∀ a b, Effect.scpPut a b ∉ (createRun rk (some reqf) kw file exec).2) := by
  have hdir := venvDirOf_none rk kw.remote_venv_root_dir hv
  have hjup : pathJoin ((venvDirOf rk kw.remote_venv_root_dir).getD "") "jupyter"
      ++ " kernelspec list" = "jupyter kernelspec list" := by rw [hdir]; rfl
  have hrs : reqStep (some reqf) (venvDirOf rk kw.remote_venv_root_dir)
      (sudoStep rk (pathJoin ((venvDirOf rk kw.remote_venv_root_dir).getD "") "python") exec).2
      (pathJoin ((venvDirOf rk kw.remote_venv_root_dir).getD "") "pip") = .error .typeError := by
    rw [hdir]
    unfold reqStep
    simp [hreq]
  simp only [createRun, hload, hg, hnodup]
  rw [hjup]
  simp only [hnorem, hrs]
  constructor
  · simp
  · intro a b
    simp [venvStepEffects, hdir, sudoStep, hv]

/-- C2 (amended): after a successful `create`, the persisted manifest maps
the descriptor's kernel id to a record whose reconstruction by
`get_installed` (no filter) carries the SAME venv and interpreter but whose
host is the stored `remote_host`, i.e. `remoteUsername ++ "@" ++ host` — not
the bare input host, since `create` composes `'{user}@{uri}'` at source line
184 and `get_installed` feeds that composite back as the descriptor's `uri`
(source line 249). -/
theorem claim_C2_create_then_list (rk : RemoteKernel) (req : Option String)
    (kw : CreateKwargs) (file : FileState) (exec : String → String × String)
    (hid : rk.rk_id ≠ "") (hpy : rk.python_cmd ≠ "")
    (hok : (createRun rk req kw file exec).1 = .ok ()) :
    ∃ m, Effect.writeKernels (.manifest m) ∈ (createRun rk req kw file exec).2 ∧
      ∃ xs, get_installed m none = .ok xs ∧
        ∃ x, x ∈ xs ∧ x.rk_id = rk.rk_id ∧
          x.uri = pyOr kw.remote_username "ubuntu" ++ "@" ++ rk.uri ∧
          x.venv_name = rk.venv_name ∧ x.python_cmd = rk.python_cmd := by
  simp only [createRun] at hok ⊢
  cases hl : loadManifest file with
  | error e => simp [hl] at hok
  | ok kd =>
    simp only [hl] at hok ⊢
    cases hgi : get_installed kd none with
    | error e => simp [hgi] at hok
    | ok rks =>
      simp only [hgi] at hok ⊢
      by_cases hdup : ((rks.filter (fun x => rkEq x rk)).any (fun d => d.rk_id == rk.rk_id)
          && !kw.overwrite) = true
      · rw [if_pos hdup] at hok
        simp at hok
      · rw [if_neg hdup] at hok ⊢
        by_cases hrem : ([strFirstField (exec (pathJoin
              ((venvDirOf rk kw.remote_venv_root_dir).getD "") "jupyter"
              ++ " kernelspec list")).2].contains rk.rk_id && !kw.overwrite) = true
        · rw [if_pos hrem] at hok
          simp at hok
        · rw [if_neg hrem] at hok ⊢
          cases hrs : reqStep req (venvDirOf rk kw.remote_venv_root_dir)
              (sudoStep rk (pathJoin ((venvDirOf rk kw.remote_venv_root_dir).getD "")
                "python") exec).2
              (pathJoin ((venvDirOf rk kw.remote_venv_root_dir).getD "") "pip") with
          | error e => simp [hrs] at hok
          | ok reqFx =>
            simp only [hrs] at hok ⊢
            have hEm : exceptMap reconstruct kd = .ok rks := by
              rw [← get_installed_none]; exact hgi
            have hall : ∀ p ∈ kd, ∃ b, reconstruct p = .ok b := by
              intro p hp
              obtain ⟨b, hb, _⟩ := exceptMap_ok_mem reconstruct hEm p hp
              exact ⟨b, hb⟩
            have hnewrec : reconstruct
                (rk.rk_id, newRecordOf rk (pyOr kw.remote_username "ubuntu")) =
                .ok ⟨rk.rk_id, pyOr kw.remote_username "ubuntu" ++ "@" ++ rk.uri,
                  rk.python_cmd, rk.venv_name,
                  pyOr kw.remote_username "ubuntu" ++ "@" ++ rk.uri ++ " :: " ++ rk.rk_id⟩ := by
              show RemoteKernel.init (pyOr kw.remote_username "ubuntu" ++ "@" ++ rk.uri)
                rk.rk_id rk.venv_name (some rk.python_cmd) none = _
              exact init_ok _ _ _ _ (append_at_ne_empty _ _) hid hpy
            have hallm : ∀ p ∈ dictInsert kd rk.rk_id
                (newRecordOf rk (pyOr kw.remote_username "ubuntu")),
                ∃ b, reconstruct p = .ok b := by
              intro p hp
              rcases dictInsert_mem_or _ _ _ p hp with rfl | hp'
              · exact ⟨_, hnewrec⟩
              · exact hall p hp'
            obtain ⟨xs, hxs⟩ := exceptMap_ok_of_all reconstruct _ hallm
            obtain ⟨b, hb, hbmem⟩ := exceptMap_ok_mem reconstruct hxs _
              (dictInsert_self_mem kd rk.rk_id
                (newRecordOf rk (pyOr kw.remote_username "ubuntu")))
            rw [hnewrec] at hb
            injection hb with hb
            refine ⟨dictInsert kd rk.rk_id (newRecordOf rk (pyOr kw.remote_username "ubuntu")),
              by simp, xs, by rw [get_installed_none]; exact hxs,
              b, hbmem, ?_, ?_, ?_, ?_⟩ <;> rw [← hb]

/-- C2 counterexample: the claim as stated — `create` then unfiltered `list`
includes a descriptor with the SAME (host, venv, interpreter) triple as the
input under its kernel id — fails at this concrete input: `create` succeeds
on host `10.0.0.5`, the only manifest write is `mA`, and reconstructing `mA`
yields exactly one descriptor, carrying host `ubuntu@10.0.0.5` rather than
`10.0.0.5`. -/
theorem claim_C2_counterexample :
    (createRun dA none kwA (.stored []) execA).1 = .ok () ∧
    (createRun dA none kwA (.stored []) execA).2 =
      [Effect.connect "10.0.0.5" "ubuntu",
        Effect.ssh (venvProbeCmd "~/envA"),
        Effect.ssh (venvCreateCmd "python3.8" "~/envA"),
        Effect.ssh " ~/envA/pip install jupyter",
        Effect.ssh "~/envA/jupyter kernelspec list",
        Effect.ssh " ~/envA/python -m ipykernel install --name=k1",
        Effect.writeKernels (.manifest mA),
        Effect.runLocal ["sudo", "rk", "install", "k1"]] ∧
    get_installed mA none =
      .ok [⟨"k1", "ubuntu@10.0.0.5", "python3.8", some "envA", "ubuntu@10.0.0.5 :: k1"⟩] ∧
    ∀ x ∈ [(⟨"k1", "ubuntu@10.0.0.5", "python3.8", some "envA",
        "ubuntu@10.0.0.5 :: k1"⟩ : RemoteKernel)],
      ¬(x.uri = dA.uri ∧ x.venv_name = dA.venv_name ∧ x.python_cmd = dA.python_cmd) :=
  ⟨rfl, rfl, rfl, by decide⟩

theorem claim_C2_witness :
    dA.rk_id ≠ "" ∧ dA.python_cmd ≠ "" ∧
    (createRun dA none kwA (.stored []) execA).1 = .ok () ∧
    (∃ m, Effect.writeKernels (.manifest m) ∈ (createRun dA none kwA (.stored []) execA).2 ∧
      ∃ xs, get_installed m none = .ok xs ∧
        ∃ x, x ∈ xs ∧ x.rk_id = dA.rk_id ∧
          x.uri = pyOr kwA.remote_username "ubuntu" ++ "@" ++ dA.uri ∧
          x.venv_name = dA.venv_name ∧ x.python_cmd = dA.python_cmd) :=
  ⟨by decide, by decide, rfl,
    claim_C2_create_then_list dA none kwA (.stored []) execA (by decide) (by decide) rfl⟩

theorem claim_C10_witness :
    ("reqs.txt" : String) ≠ "" ∧
    pyTruthy dC.venv_name = false ∧
    loadManifest (.stored ([] : Manifest)) = .ok [] ∧
    get_installed [] none = .ok [] ∧
    (createRun dC (some "reqs.txt") ⟨false, none, none⟩ (.stored []) (fun _ => ("", ""))).1 =
      .error .typeError ∧
    Effect.scpPut "reqs.txt" "requirements.txt" ∉
      (createRun dC (some "reqs.txt") ⟨false, none, none⟩ (.stored []) (fun _ => ("", ""))).2 :=
  ⟨by decide, by decide, rfl, rfl,
    (claim_C10_requirements_without_venv dC "reqs.txt" ⟨false, none, none⟩ (.stored [])
        (fun _ => ("", "")) [] [] (by decide) (by decide) rfl rfl (by decide) (by decide)).1,
    (claim_C10_requirements_without_venv dC "reqs.txt" ⟨false, none, none⟩ (.stored [])
        (fun _ => ("", "")) [] [] (by decide) (by decide) rfl rfl (by decide) (by decide)).2
      "reqs.txt" "requirements.txt"⟩
